import Mathlib

/-!
Verification of the ecocito bridge (src/main.py): a poller that logs in to
the Ecocito portal, fetches recent waste-collection records, deduplicates
them through a persisted fingerprint state, and republishes new records on
an MQTT bus.  The definitions below are a shallow embedding of the Python
source; theorems settle the specification claims against them.
-/

/-- A Python `datetime` value, represented by its canonical ISO-8601
rendering (`datetime.isoformat()` output).  The program only ever consumes
datetimes through `isoformat`, so this rendering determines everything the
code observes about a timestamp. -/
structure Datetime where
  iso : String
deriving DecidableEq, Repr

/-- `datetime.isoformat()`. -/
def isoformat (d : Datetime) : String :=
  d.iso

/-- `datetime.fromisoformat(s)` on a well-formed naive ISO string: the
parsed datetime round-trips to the same ISO rendering. -/
def fromisoformat (s : String) : Datetime :=
  ⟨s⟩

/-- `pytz.timezone('UTC').localize(d)` on a naive datetime: the aware
datetime's `isoformat` is the naive rendering with the `+00:00` offset
appended. -/
def localize_utc (d : Datetime) : Datetime :=
  ⟨d.iso ++ "+00:00"⟩

/-- The JSON value stored in the state file: `self._state`, a dict whose
only recognized key is `known_hashes` holding a list of fingerprint
strings.  `none` models the key being absent (as in the initial `{}`). -/
structure StateData where
  known_hashes : Option (List String)
deriving DecidableEq, Repr

/-- A `State` object together with its backing file: `data` is the
in-memory `self._state`, `file` is the parsed JSON content of
`self._file` (`none` when the file does not exist). -/
structure State where
  data : StateData
  file : Option StateData
deriving DecidableEq, Repr

/-- The fingerprints currently recorded in memory
(`self._state.get('known_hashes', [])`). -/
def memHashes (st : State) : List String :=
  st.data.known_hashes.getD []

/-- The fingerprints recorded in the persisted file (empty when the file
is missing or has no `known_hashes` key). -/
def fileHashes (st : State) : List String :=
  ((st.file.getD ⟨none⟩).known_hashes).getD []

/-- `State.load_state`: if the file exists, replace the in-memory state
with its parsed content; otherwise leave the state unchanged. -/
def load_state (st : State) : State :=
  match st.file with
  | none => st
  | some d => { st with data := d }

/-- `State.save_state`: serialize the full in-memory state to the file
(directory creation elided — it does not affect the stored value). -/
def save_state (st : State) : State :=
  { st with file := some st.data }

/-- `State.compute_hash`: the four record fields joined by `_`, with the
timestamp rendered by `isoformat` and the weight by its Python string
formatting (we carry weights as their decimal rendering). -/
def compute_hash (time : Datetime) (cuve puce weight : String) : String :=
  isoformat time ++ "_" ++ cuve ++ "_" ++ puce ++ "_" ++ weight

/-- `State.is_new`: compute the fingerprint; if it is not among the known
hashes, append it (creating the `known_hashes` entry if absent), persist
the whole state, and return `true`; otherwise return `false` with no side
effect.  Returns the boolean together with the updated state. -/
def is_new (st : State) (time : Datetime) (cuve puce weight : String) :
    Bool × State :=
  let h := compute_hash time cuve puce weight
  if h ∈ memHashes st then
    (false, st)
  else
    (true, save_state { st with data := ⟨some (memHashes st ++ [h])⟩ })

/-- A process restart with the same state file: a fresh `State` object
(`self._state = {}`) pointing at the surviving file, followed by
`load_state`. -/
def restart (st : State) : State :=
  load_state { data := ⟨none⟩, file := st.file }

/-- The fresh state of a first run: empty in-memory dict, no file yet. -/
def freshState : State :=
  { data := ⟨none⟩, file := none }

/-- One record of the portal response's `data` array, with the four fields
the loop reads via `row.get(...)`.  `QUANTITE_NETTE` is carried as the
decimal rendering of the JSON number (Python's `str`/`format` output for
the parsed float). -/
structure Row where
  NumeroCuve : String
  NumeroPuce : String
  QUANTITE_NETTE : String
  DATE_DONNEE : String
deriving DecidableEq, Repr

/-- A minimal JSON scalar, enough for the published payload: a string or a
number carried by its decimal rendering. -/
inductive JVal where
  | s (v : String)
  | n (v : String)
deriving DecidableEq, Repr

/-- Rendering of one scalar inside `json.dumps` output. -/
def jvalDump : JVal → String
  | .s v => "\"" ++ v ++ "\""
  | .n v => v

/-- `json.dumps` of a dict with the given insertion-ordered key/value
pairs, with CPython's default separators (", " between items, ": " after
keys).  String escaping is the identity on the character set appearing in
this program's payloads. -/
def jsonDumpsObj (kvs : List (String × JVal)) : String :=
  "\x7b" ++
    String.intercalate ", "
      (kvs.map (fun kv => "\"" ++ kv.1 ++ "\": " ++ jvalDump kv.2)) ++
    "\x7d"

/-- One MQTT publish call: topic, JSON payload string, QoS level, retain
flag. -/
structure Msg where
  topic : String
  payload : String
  qos : Nat
  retain : Bool
deriving DecidableEq, Repr

/-- `os.getenv('MQTT_TOPIC', 'ecocito/levee')` with the variable unset. -/
def defaultTopic : String :=
  "ecocito/levee"

/-- The per-row body of the orchestrator loop under the default UTC
timezone: extract the four fields, localize the parsed timestamp, call
`is_new`, and if new publish one retained QoS-0 message with the JSON
payload built from `time.isoformat()`, `cuve`, `puce`, `weight`.  Returns
the messages published for this row and the updated state. -/
def processRow (st : State) (topic : String) (row : Row) :
    List Msg × State :=
  let cuve := row.NumeroCuve
  let puce := row.NumeroPuce
  let weight := row.QUANTITE_NETTE
  let time := localize_utc (fromisoformat row.DATE_DONNEE)
  let r := is_new st time cuve puce weight
  if r.1 then
    ([{ topic := topic,
        payload := jsonDumpsObj
          [("time", .s (isoformat time)),
           ("cuve", .s cuve),
           ("puce", .s puce),
           ("weight", .n weight)],
        qos := 0,
        retain := true }], r.2)
  else
    ([], r.2)

/-- One polling cycle's record-processing phase: fold `processRow` over
the response's `data` array in order, collecting the published messages
and threading the deduplication state. -/
def cycle (st : State) (rows : List Row) : List Msg × State :=
  rows.foldl
    (fun acc row =>
      let r := processRow acc.2 defaultTopic row
      (acc.1 ++ r.1, r.2))
    ([], st)

/-- The portal's reply to the login POST, as the program observes it: the
HTTP status code, and the parsed `div.validation-summary-errors` blocks
(`find_all`), each given by the text of its `li` items in document
order. -/
structure LoginResponse where
  status_code : Nat
  validation_summary_errors : List (List String)
deriving DecidableEq, Repr

/-- Outcome of `Ecocito.login`: success, an `EcocitoException` for a
non-200 status (carrying the status code), an `EcocitoException` carrying
the text of the first `li` of the first error block, or an
`AttributeError` crash when the first block has no `li` at all. -/
inductive LoginOutcome where
  | success
  | httpError (status : Nat)
  | validationError (msg : String)
  | attributeCrash
deriving DecidableEq, Repr

/-- `Ecocito.login`: raise on a non-200 status; otherwise look for
validation-error blocks and raise with the first block's first list item
text; succeed when no block is present. -/
def login (r : LoginResponse) : LoginOutcome :=
  if r.status_code ≠ 200 then
    .httpError r.status_code
  else
    match r.validation_summary_errors with
    | [] => .success
    | block :: _ =>
      match block with
      | li :: _ => .validationError li
      | [] => .attributeCrash

/-- Body of the portal's reply to the records request: either valid JSON
(parsed to a value of type `α`), or a non-JSON body given by the texts of
its `div.error` blocks (empty list when no such block exists). -/
inductive FetchBody (α : Type) where
  | jsonBody (v : α)
  | rawBody (error_divs : List String)
deriving DecidableEq, Repr

/-- The portal's reply to the records request: HTTP status and body. -/
structure FetchResponse (α : Type) where
  status_code : Nat
  body : FetchBody α
deriving DecidableEq, Repr

/-- Outcome of `Ecocito.get_levees`: the parsed JSON body, an
`EcocitoException` for a non-200 status, an `EcocitoException` carrying
the first `div.error` text of a non-JSON body, or the re-raised
`JSONDecodeError` when the non-JSON body has no error block. -/
inductive FetchOutcome (α : Type) where
  | ok (v : α)
  | httpError (status : Nat)
  | portalError (msg : String)
  | jsonDecodeError
deriving DecidableEq, Repr

/-- Response handling of `Ecocito.get_levees`: raise on a non-200 status;
return the parsed JSON body; on a JSON parse failure, raise with the
first `div.error` block's text if one exists, else re-raise the parse
error. -/
def get_levees (r : FetchResponse α) : FetchOutcome α :=
  if r.status_code ≠ 200 then
    .httpError r.status_code
  else
    match r.body with
    | .jsonBody v => .ok v
    | .rawBody (d :: _) => .portalError d
    | .rawBody [] => .jsonDecodeError

/-- An observable event of one iteration of the `while True` loop. -/
inductive LoopEvent where
  | published (m : Msg)
  | loggedDebugWait
  | slept (seconds : Nat)
  | loggedException
  | exited
deriving DecidableEq, Repr

/-- The execution of one attempt at the `try` body, steps 1-4 (login,
fetch, per-record processing/publishing, logout): the events it emitted,
and whether it raised an exception before completing. -/
structure BodyRun where
  trace : List LoopEvent
  raised : Bool
deriving DecidableEq, Repr

/-- One iteration of the `while True` loop: run the `try` body; if it
completes, log the debug message and sleep 3600 seconds (both inside the
`try`); if it raises, the `except Exception` clause logs the exception
and the iteration ends, control returning to the top of the loop. -/
def iteration (b : BodyRun) : List LoopEvent :=
  if b.raised then
    b.trace ++ [.loggedException]
  else
    b.trace ++ [.loggedDebugWait, .slept 3600]

/-- A naive Python `datetime` by components, as used for the fetch
window (`datetime.now()`). -/
structure SimpleDT where
  year : Nat
  month : Nat
  day : Nat
  hour : Nat
  minute : Nat
  second : Nat
deriving DecidableEq, Repr

/-- Gregorian leap-year test. -/
def isLeap (y : Nat) : Bool :=
  y % 4 == 0 && (y % 100 != 0 || y % 400 == 0)

/-- Number of days in a month. -/
def daysInMonth (y m : Nat) : Nat :=
  if m == 2 then (if isLeap y then 29 else 28)
  else if m == 4 || m == 6 || m == 9 || m == 11 then 30
  else 31

/-- `dt + relativedelta(months=delta)` (dateutil): shift the month index,
carrying into the year, and clamp the day to the target month's length. -/
def addMonths (dt : SimpleDT) (delta : Int) : SimpleDT :=
  let total : Int := (dt.year : Int) * 12 + (dt.month : Int) - 1 + delta
  let y := (total / 12).toNat
  let m := (total % 12).toNat + 1
  { dt with year := y, month := m, day := min dt.day (daysInMonth y m) }

/-- Zero-padded two-digit rendering (`%m`, `%d`). -/
def pad2 (n : Nat) : String :=
  if n < 10 then "0" ++ toString n else toString n

/-- Zero-padded four-digit rendering (`%Y`). -/
def pad4 (n : Nat) : String :=
  if n < 10 then "000" ++ toString n
  else if n < 100 then "00" ++ toString n
  else if n < 1000 then "0" ++ toString n
  else toString n

/-- `dt.strftime('%Y-%m-%d')`. -/
def strftimeYmd (dt : SimpleDT) : String :=
  pad4 dt.year ++ "-" ++ pad2 dt.month ++ "-" ++ pad2 dt.day

/-- The query parameters `Ecocito.get_levees` sends (the integer-valued
parameters rendered as the transport serializes them). -/
def get_levees_params (date_start date_end : SimpleDT) :
    List (String × String) :=
  [("charger", "true"),
   ("idMatiere", "-1"),
   ("sort", "[\x7b\"selector\":\"DATE_DONNEE\",\"desc\":false\x7d]"),
   ("skip", "0"),
   ("take", "20"),
   ("dateDebut", strftimeYmd date_start ++ "T00:00:00.000Z"),
   ("dateFin", strftimeYmd date_end ++ "T23:59:59.999Z")]

/-- The fetch call the orchestrator makes for a given current time:
`get_levees(now + relativedelta(months=-2), now)`. -/
def mainWindowParams (now : SimpleDT) : List (String × String) :=
  get_levees_params (addMonths now (-2)) now

/-- `json.dump` output for the state dict: `\x7b\x7d` for the empty dict,
otherwise the `known_hashes` key mapped to the array of fingerprint
strings, with CPython's default separators. -/
def serializeState : StateData → String
  | ⟨none⟩ => "\x7b\x7d"
  | ⟨some hs⟩ =>
    "\x7b\"known_hashes\": [" ++
      String.intercalate ", " (hs.map (fun h => "\"" ++ h ++ "\"")) ++
      "]\x7d"

/-- The successive on-disk contents of the state file during one
`save_state` call: the prior content, then the empty file left by the
truncating `open('w')`, then the fully written serialization.  A kill
between two steps leaves the disk at the earlier element. -/
def save_state_disk_trace (prior : String) (st : StateData) :
    List String :=
  [prior, "", serializeState st]

/-- C1: the first `is_new` call against a state not containing the
record's fingerprint returns `true` and persists the fingerprint; every
subsequent call with an equal record returns `false` and leaves the state
unchanged, both in the same process and after a restart that reloads the
persisted state. -/
theorem C1_dedup_idempotent (st : State) (t : Datetime) (c p w : String)
    (h : compute_hash t c p w ∉ memHashes st) :
    (is_new st t c p w).1 = true ∧
    compute_hash t c p w ∈ fileHashes (is_new st t c p w).2 ∧
    (is_new (is_new st t c p w).2 t c p w).1 = false ∧
    (is_new (is_new st t c p w).2 t c p w).2 = (is_new st t c p w).2 ∧
    (is_new (restart (is_new st t c p w).2) t c p w).1 = false := by
  simp only [memHashes] at h
  simp [is_new, save_state, restart, load_state, memHashes, fileHashes, h]

/-- C1 witness: a concrete fresh record is new once, then never again,
also after a restart. -/
theorem C1_dedup_idempotent_witness :
    (is_new (load_state freshState) ⟨"2024-03-01T08:00:00+00:00"⟩
      "A1" "P1" "12.5").1 = true ∧
    (is_new (is_new (load_state freshState) ⟨"2024-03-01T08:00:00+00:00"⟩
      "A1" "P1" "12.5").2 ⟨"2024-03-01T08:00:00+00:00"⟩
      "A1" "P1" "12.5").1 = false ∧
    (is_new (restart (is_new (load_state freshState)
      ⟨"2024-03-01T08:00:00+00:00"⟩ "A1" "P1" "12.5").2)
      ⟨"2024-03-01T08:00:00+00:00"⟩ "A1" "P1" "12.5").1 = false := by
  have h := C1_dedup_idempotent (load_state freshState)
    ⟨"2024-03-01T08:00:00+00:00"⟩ "A1" "P1" "12.5" (by decide)
  exact ⟨h.1, h.2.2.1, h.2.2.2.2⟩

/-- C2: with the portal returning the single record
(NumeroCuve "A1", NumeroPuce "P1", QUANTITE_NETTE 12.5,
DATE_DONNEE "2024-03-01T08:00:00") under the default UTC timezone, the
first cycle publishes exactly one message on the default topic
`ecocito/levee` with QoS 0, the retain flag set, and the expected JSON
payload; the immediately following cycle with the identical response
publishes nothing. -/
theorem C2_end_to_end :
    (cycle (load_state freshState)
        [⟨"A1", "P1", "12.5", "2024-03-01T08:00:00"⟩]).1 =
      [{ topic := "ecocito/levee",
         payload := "\x7b\"time\": \"2024-03-01T08:00:00+00:00\", \"cuve\": \"A1\", \"puce\": \"P1\", \"weight\": 12.5\x7d",
         qos := 0,
         retain := true }] ∧
    (cycle (cycle (load_state freshState)
        [⟨"A1", "P1", "12.5", "2024-03-01T08:00:00"⟩]).2
        [⟨"A1", "P1", "12.5", "2024-03-01T08:00:00"⟩]).1 = [] := by
  decide

/-- C3 counterexample: an iteration whose `try` body raises only logs the
exception and ends — it contains no sleep event at all, because the
`t.sleep(3600)` sits inside the `try` block after `logout()` and is
skipped when control jumps to `except`; the claimed one-hour sleep before
the retry does not happen. -/
theorem C3_counterexample :
    iteration ⟨[], true⟩ = [.loggedException] ∧
    LoopEvent.slept 3600 ∉ iteration ⟨[], true⟩ ∧
    LoopEvent.exited ∉ iteration ⟨[], true⟩ := by
  decide

/-- C3 (amended): every exception raised during steps 1-4 is caught at
the top of the loop and logged, and the loop retries the next cycle
immediately without sleeping — the 3600-second sleep happens only after a
successful iteration; the process never terminates on such an error. -/
theorem C3_error_retries_without_sleep (b : BodyRun)
    (hr : b.raised = true) :
    iteration b = b.trace ++ [.loggedException] ∧
    (LoopEvent.slept 3600 ∉ b.trace →
      LoopEvent.slept 3600 ∉ iteration b) ∧
    (LoopEvent.exited ∉ b.trace → LoopEvent.exited ∉ iteration b) := by
  simp [iteration, hr]

/-- C3 witness: the amended behaviour at a concrete failing body. -/
theorem C3_error_retries_without_sleep_witness :
    iteration ⟨[], true⟩ = ([] : List LoopEvent) ++ [.loggedException] ∧
    LoopEvent.slept 3600 ∉ iteration ⟨[], true⟩ := by
  have h := C3_error_retries_without_sleep ⟨[], true⟩ rfl
  exact ⟨h.1, h.2.1 (by decide)⟩

/-- C4: with the current time 2024-03-15T10:00:00, the fetch request
carries `dateDebut = 2024-01-15T00:00:00.000Z` (two calendar months
earlier, at UTC midnight), `dateFin = 2024-03-15T23:59:59.999Z` (the
current date at UTC end-of-day), `charger=true`, `idMatiere=-1`, an
ascending sort on DATE_DONNEE, `skip=0` and `take=20`. -/
theorem C4_window_params :
    mainWindowParams ⟨2024, 3, 15, 10, 0, 0⟩ =
      [("charger", "true"),
       ("idMatiere", "-1"),
       ("sort", "[\x7b\"selector\":\"DATE_DONNEE\",\"desc\":false\x7d]"),
       ("skip", "0"),
       ("take", "20"),
       ("dateDebut", "2024-01-15T00:00:00.000Z"),
       ("dateFin", "2024-03-15T23:59:59.999Z")] := by
  decide

/-- C5: `login` fails with an error carrying the HTTP status code
whenever the status is not 200; on a 200 response with no
validation-error block it succeeds; on a 200 response whose first
validation-error block has a first list item, it fails with an error
whose message equals that item's text. -/
theorem C5_login_outcomes (r : LoginResponse) :
    (r.status_code ≠ 200 → login r = .httpError r.status_code) ∧
    (r.status_code = 200 → r.validation_summary_errors = [] →
      login r = .success) ∧
    (∀ li lis rest, r.status_code = 200 →
      r.validation_summary_errors = (li :: lis) :: rest →
      login r = .validationError li) := by
  refine ⟨fun h => ?_, fun h hb => ?_, fun li lis rest h hb => ?_⟩
  · simp [login, h]
  · simp [login, h, hb]
  · simp [login, h, hb]

/-- C5 witness: concrete responses for the three branches, including the
exact "Invalid credentials" scenario. -/
theorem C5_login_outcomes_witness :
    login ⟨500, []⟩ = .httpError 500 ∧
    login ⟨200, []⟩ = .success ∧
    login ⟨200, [["Invalid credentials"]]⟩ =
      .validationError "Invalid credentials" :=
  ⟨(C5_login_outcomes ⟨500, []⟩).1 (by decide),
   (C5_login_outcomes ⟨200, []⟩).2.1 rfl rfl,
   (C5_login_outcomes ⟨200, [["Invalid credentials"]]⟩).2.2
     "Invalid credentials" [] [] rfl rfl⟩

/-- C6: `get_levees` fails with a protocol error carrying the status
whenever the HTTP status is not 200; on a 200 response with a valid JSON
body it returns the parsed body; on a 200 non-JSON response it fails with
the first HTML error block's message when one exists, and otherwise
re-raises the JSON parse failure. -/
theorem C6_fetch_outcomes {α : Type} (r : FetchResponse α) :
    (r.status_code ≠ 200 → get_levees r = .httpError r.status_code) ∧
    (∀ v, r.status_code = 200 → r.body = .jsonBody v →
      get_levees r = .ok v) ∧
    (∀ d ds, r.status_code = 200 → r.body = .rawBody (d :: ds) →
      get_levees r = .portalError d) ∧
    (r.status_code = 200 → r.body = .rawBody [] →
      get_levees r = .jsonDecodeError) := by
  refine ⟨fun h => ?_, fun v h hb => ?_, fun d ds h hb => ?_,
    fun h hb => ?_⟩
  · simp [get_levees, h]
  · simp [get_levees, h, hb]
  · simp [get_levees, h, hb]
  · simp [get_levees, h, hb]

/-- C6 witness: concrete responses (JSON bodies parsed to a `Nat`) for
the four branches. -/
theorem C6_fetch_outcomes_witness :
    get_levees (⟨503, .jsonBody 7⟩ : FetchResponse Nat) = .httpError 503 ∧
    get_levees (⟨200, .jsonBody 7⟩ : FetchResponse Nat) = .ok 7 ∧
    get_levees (⟨200, .rawBody ["maintenance"]⟩ : FetchResponse Nat) =
      .portalError "maintenance" ∧
    get_levees (⟨200, .rawBody []⟩ : FetchResponse Nat) =
      .jsonDecodeError :=
  ⟨(C6_fetch_outcomes ⟨503, .jsonBody 7⟩).1 (by decide),
   (C6_fetch_outcomes ⟨200, .jsonBody 7⟩).2.1 7 rfl rfl,
   (C6_fetch_outcomes ⟨200, .rawBody ["maintenance"]⟩).2.2.1
     "maintenance" [] rfl rfl,
   (C6_fetch_outcomes ⟨200, .rawBody []⟩).2.2.2 rfl rfl⟩

/-- C7: the fingerprint set grows monotonically — on any state whose
persisted file content is covered by the in-memory set (as established by
`load_state` and preserved below), an `is_new` call keeps every
fingerprint previously present in memory and in the file, and
re-establishes the coverage, so no call ever removes a recorded
fingerprint within a run or across runs. -/
theorem C7_monotonic_growth (st : State) (t : Datetime) (c p w : String)
    (h : String) (hinv : ∀ x, x ∈ fileHashes st → x ∈ memHashes st) :
    (h ∈ memHashes st → h ∈ memHashes (is_new st t c p w).2) ∧
    (h ∈ fileHashes st → h ∈ fileHashes (is_new st t c p w).2) ∧
    (∀ x, x ∈ fileHashes (is_new st t c p w).2 →
      x ∈ memHashes (is_new st t c p w).2) := by
  by_cases hd : compute_hash t c p w ∈ memHashes st
  · simp only [memHashes] at hd
    simp only [is_new, save_state, memHashes, fileHashes, if_pos hd]
    exact ⟨id, id, hinv⟩
  · simp only [memHashes] at hd
    simp only [is_new, save_state, memHashes, fileHashes, if_neg hd]
    refine ⟨fun hm => ?_, fun hf => ?_, fun x hx => ?_⟩
    · simp only [Option.getD_some, List.mem_append]
      exact Or.inl hm
    · simp only [Option.getD_some, List.mem_append]
      exact Or.inl (hinv h hf)
    · simpa using hx

/-- C7 witness: a concrete state with a persisted fingerprint keeps it
through a further `is_new` call. -/
theorem C7_monotonic_growth_witness :
    ("A" ∈ memHashes (is_new ⟨⟨some ["A"]⟩, some ⟨some ["A"]⟩⟩
      ⟨"T"⟩ "c" "p" "w").2) ∧
    ("A" ∈ fileHashes (is_new ⟨⟨some ["A"]⟩, some ⟨some ["A"]⟩⟩
      ⟨"T"⟩ "c" "p" "w").2) := by
  have hh := C7_monotonic_growth ⟨⟨some ["A"]⟩, some ⟨some ["A"]⟩⟩
    ⟨"T"⟩ "c" "p" "w" "A" (by decide)
  exact ⟨hh.1 (by decide), hh.2.1 (by decide)⟩

/-- C8: fingerprint computation is deterministic and depends only on the
four record fields — records with identical timestamp rendering, tank id,
chip id and weight yield the same fingerprint (within a run or across
restarts, the function being pure), and the fingerprint is exactly the
four values joined by the `_` delimiter. -/
theorem C8_hash_deterministic (t1 t2 : Datetime)
    (c1 p1 w1 c2 p2 w2 : String) (ht : isoformat t1 = isoformat t2)
    (hc : c1 = c2) (hp : p1 = p2) (hw : w1 = w2) :
    compute_hash t1 c1 p1 w1 = compute_hash t2 c2 p2 w2 ∧
    compute_hash t1 c1 p1 w1 =
      isoformat t1 ++ "_" ++ c1 ++ "_" ++ p1 ++ "_" ++ w1 := by
  subst hc hp hw
  exact ⟨by simp [compute_hash, ht], rfl⟩

/-- C8 witness: two separately constructed records with equal fields have
the same fingerprint, with the expected joined form. -/
theorem C8_hash_deterministic_witness :
    compute_hash ⟨"2024-03-01T08:00:00+00:00"⟩ "A1" "P1" "12.5" =
      compute_hash ⟨"2024-03-01T08:00:00+00:00"⟩ "A1" "P1" "12.5" ∧
    compute_hash ⟨"2024-03-01T08:00:00+00:00"⟩ "A1" "P1" "12.5" =
      "2024-03-01T08:00:00+00:00" ++ "_" ++ "A1" ++ "_" ++ "P1" ++
        "_" ++ "12.5" :=
  C8_hash_deterministic ⟨"2024-03-01T08:00:00+00:00"⟩
    ⟨"2024-03-01T08:00:00+00:00"⟩ "A1" "P1" "12.5" "A1" "P1" "12.5"
    rfl rfl rfl rfl

/-- C9 counterexample: `save_state` rewrites the state file in place —
`open('w')` truncates it before `json.dump` writes — so during a save
that adds "h2" to a file holding "h1", the disk passes through the empty
string, which is neither the prior complete snapshot nor the new one (and
holds no previously committed fingerprint); the claimed
prior-or-new-snapshot guarantee fails at that moment. -/
theorem C9_counterexample :
    "" ∈ save_state_disk_trace (serializeState ⟨some ["h1"]⟩)
      ⟨some ["h1", "h2"]⟩ ∧
    "" ≠ serializeState ⟨some ["h1"]⟩ ∧
    "" ≠ serializeState ⟨some ["h1", "h2"]⟩ := by
  decide

/-- C9 (amended): each save rewrites the state file in place, so a kill
during a save can expose the empty file left by the truncating open — the
disk is always the prior snapshot, the truncated empty file, or the new
complete snapshot; only a kill after the completed write is guaranteed to
leave the new complete snapshot, which is never empty. -/
theorem C9_save_not_atomic (prior : String) (st : StateData) :
    (∀ d ∈ save_state_disk_trace prior st,
      d = prior ∨ d = "" ∨ d = serializeState st) ∧
    (save_state_disk_trace prior st).getLast? =
      some (serializeState st) ∧
    serializeState st ≠ "" := by
  refine ⟨?_, rfl, ?_⟩
  · intro d hd
    simp only [save_state_disk_trace, List.mem_cons,
      List.mem_singleton] at hd
    rcases hd with h | h | h | h
    · exact Or.inl h
    · exact Or.inr (Or.inl h)
    · exact Or.inr (Or.inr h)
    · exact absurd h (List.not_mem_nil d)
  · cases st with
    | mk kh =>
      cases kh with
      | none => decide
      | some hs =>
        intro heq
        have hl := congrArg String.length heq
        have h18 : ("\x7b\"known_hashes\": [" : String).length = 18 := by
          decide
        have h2 : ("]\x7d" : String).length = 2 := by decide
        have h0 : ("" : String).length = 0 := by decide
        simp only [serializeState, String.length_append, h18, h2, h0]
          at hl
        omega

/-- C9 witness: the amended guarantee at a concrete save, with the
truncated intermediate state classified and the completed write equal to
the new nonempty snapshot. -/
theorem C9_save_not_atomic_witness :
    ("" = serializeState ⟨some ["h1"]⟩ ∨ "" = "" ∨
      "" = serializeState ⟨some ["h1", "h2"]⟩) ∧
    (save_state_disk_trace (serializeState ⟨some ["h1"]⟩)
      ⟨some ["h1", "h2"]⟩).getLast? =
      some (serializeState ⟨some ["h1", "h2"]⟩) ∧
    serializeState ⟨some ["h1", "h2"]⟩ ≠ "" := by
  have h := C9_save_not_atomic (serializeState ⟨some ["h1"]⟩)
    ⟨some ["h1", "h2"]⟩
  exact ⟨h.1 "" (by decide), h.2.1, h.2.2⟩

/-- C10: the fingerprint is not injective across field boundaries — the
distinct records (cuve "A_B", puce "C") and (cuve "A", puce "B_C") with
equal timestamp and weight collide because the fields are joined with `_`
and no escaping, so after the first record is seen, `is_new` classifies
the second, logically distinct record as not new, and a cycle processing
both publishes only one message. -/
theorem C10_delimiter_collision :
    ("A_B", "C") ≠ ("A", "B_C") ∧
    compute_hash ⟨"2024-03-01T08:00:00+00:00"⟩ "A_B" "C" "12.5" =
      compute_hash ⟨"2024-03-01T08:00:00+00:00"⟩ "A" "B_C" "12.5" ∧
    (is_new (is_new (load_state freshState)
        ⟨"2024-03-01T08:00:00+00:00"⟩ "A_B" "C" "12.5").2
      ⟨"2024-03-01T08:00:00+00:00"⟩ "A" "B_C" "12.5").1 = false ∧
    (cycle (load_state freshState)
      [⟨"A_B", "C", "12.5", "2024-03-01T08:00:00"⟩,
       ⟨"A", "B_C", "12.5", "2024-03-01T08:00:00"⟩]).1.length = 1 := by
  decide
